import Mathlib

/-!
Verification of the MK4duo heater controller and AVR interrupt machinery.

The definitions below are a shallow embedding of
`src/MK4duo/src/core/heater/heater.h` (heater state machine) and
`src/MK4duo/src/HAL/HAL_AVR/HAL_AVR.h` (interrupt-protected block and the
two timer interrupt handlers).  Machine bytes are modelled as `Nat` with
explicit bitwise operations; `int16_t` temperatures are modelled as `Int`
(no arithmetic here comes near the 16-bit bounds); the `float`
`current_temperature` is modelled as `Int` since only its ordering is used
by the embedded operations.
-/

set_option autoImplicit false

namespace MK4duo

/-- Source: `enum HeatertypeEnum : uint8_t { IS_HOTEND, IS_BED, IS_CHAMBER, IS_COOLER }`. -/
inductive HeatertypeEnum : Type where
  | IS_HOTEND
  | IS_BED
  | IS_CHAMBER
  | IS_COOLER
deriving DecidableEq, Repr

/-- Source: `enum TRState : uint8_t { TRInactive, TRFirstHeating, TRStable, TRRunaway }`. -/
inductive TRState : Type where
  | TRInactive
  | TRFirstHeating
  | TRStable
  | TRRunaway
deriving DecidableEq, Repr

/-- Source: `union flagheater_t`: eight one-bit flags (bit 0 = Active .. bit 7 = Pidtuning),
modelled as a structure of eight `Bool`s; the `all` byte view is only ever used to
zero every bit at once (`resetFlag`), which is modelled by `flagZero`. -/
structure flagheater_t : Type where
  Active            : Bool
  UsePid            : Bool
  Pidtuned          : Bool
  HWInvert          : Bool
  Thermalprotection : Bool
  Idle              : Bool
  Fault             : Bool
  Pidtuning         : Bool
deriving DecidableEq, Repr

/-- The flag byte with `all = 0x00`: every flag cleared (the `flagheater_t`
constructor, and the value written by `resetFlag`). -/
def flagZero : flagheater_t :=
  ⟨false, false, false, false, false, false, false, false⟩

/-- Source: `heater_data_t`: type, pin, flag byte, ID, mintemp, maxtemp. -/
structure heater_data_t : Type where
  type    : HeatertypeEnum
  pin     : Int
  flag    : flagheater_t
  ID      : Nat
  mintemp : Int
  maxtemp : Int
deriving DecidableEq, Repr

/-- The `Heater` class state.  `pid` (external `pid_data_t`) is abstracted to a
`Nat` placeholder since no embedded operation reads its contents; of the external
`sensor_data_t` only the `type` field is consulted (`sensor.type != 0` in
`setActive`), modelled as `sensorType`. -/
structure Heater : Type where
  data                  : heater_data_t
  pid                   : Nat
  sensorType            : Nat
  watch_target_temp     : Nat
  pwm_value             : Nat
  consecutive_low_temp  : Nat
  target_temperature    : Int
  idle_temperature      : Int
  current_temperature   : Int
  thermal_runaway_state : TRState
  watch_next_ms         : Nat
  idle_timeout_time     : Nat
deriving DecidableEq, Repr

/-- Write the `Active` bit of the flag byte. -/
def setFlagActive (b : Bool) (h : Heater) : Heater :=
  { h with data := { h.data with flag := { h.data.flag with Active := b } } }

/-- Write the `Idle` bit of the flag byte. -/
def setFlagIdle (b : Bool) (h : Heater) : Heater :=
  { h with data := { h.data with flag := { h.data.flag with Idle := b } } }

/-- Write the `Fault` bit of the flag byte. -/
def setFlagFault (b : Bool) (h : Heater) : Heater :=
  { h with data := { h.data with flag := { h.data.flag with Fault := b } } }

/-- Source: `Heater::setActive(onoff)`:
`if (!isFault() && sensor.type != 0 && onoff) data.flag.Active = true; else data.flag.Active = false;`. -/
def setActive (onoff : Bool) (h : Heater) : Heater :=
  if h.data.flag.Fault = false ∧ h.sensorType ≠ 0 ∧ onoff = true then
    setFlagActive true h
  else
    setFlagActive false h

/-- Source: `Heater::setFault()`: `pwm_value = 0; setActive(false); data.flag.Fault = true;`. -/
def setFault (h : Heater) : Heater :=
  setFlagFault true (setActive false { h with pwm_value := 0 })

/-- Source: `Heater::SwitchOff()`: `target_temperature = 0; pwm_value = 0; setActive(false);`. -/
def SwitchOff (h : Heater) : Heater :=
  setActive false { h with target_temperature := 0, pwm_value := 0 }

/-- Source: `Heater::ResetFault()`: `data.flag.Fault = false; SwitchOff();`. -/
def ResetFault (h : Heater) : Heater :=
  SwitchOff (setFlagFault false h)

/-- Source: `Heater::setIdle(onoff, idle_temp=0)`:
`data.flag.Idle = onoff; idle_temperature = idle_temp; if (onoff) thermal_runaway_state = TRInactive;`.
The C++ default argument `idle_temp = 0` is made explicit here. -/
def setIdle (onoff : Bool) (idle_temp : Int) (h : Heater) : Heater :=
  let h1 := { setFlagIdle onoff h with idle_temperature := idle_temp }
  if onoff = true then { h1 with thermal_runaway_state := TRState.TRInactive } else h1

/-- Source: `Heater::resetFlag()`: `data.flag.all = false;` (clears the whole flag byte). -/
def resetFlag (h : Heater) : Heater :=
  { h with data := { h.data with flag := flagZero } }

/-- Modelled from the spec: the per-kind check-interval constants.
`heater.h` declares `constexpr uint16_t temp_check_interval[HEATER_TYPE]` but its
entries are configuration macros (`HOTEND_CHECK_INTERVAL`, ...) whose definitions
are not in `src/`; the hotend value follows the concrete scenario of spec §8
(20 s), the others take the same nominal value.  In milliseconds. -/
def temp_check_interval : HeatertypeEnum → Nat
  | _ => 20000

/-- Modelled from the spec: the per-kind hysteresis constants
(`temp_hysteresis[HEATER_TYPE]`, config macros not in `src/`); the hotend value
follows spec §8 (3 °C). -/
def temp_hysteresis : HeatertypeEnum → Int
  | _ => 3

/-- Modelled from the spec: the per-kind watch-increase constants
(`watch_increase[HEATER_TYPE]`, config macros not in `src/`); the hotend value
follows spec §8 (2 °C). -/
def watch_increase : HeatertypeEnum → Int
  | _ => 2

/-- Modelled from the spec: the consecutive out-of-band sample count after which
a `Stable` heater trips `Runaway` (spec §4.4: "crossing a configured
consecutive-count threshold, equivalent in duration to `check_interval[kind]`"). -/
def runaway_count_threshold : HeatertypeEnum → Nat
  | _ => 20

/-- Source: `PWM_MAX`, the full-on duty value of an 8-bit PWM channel. -/
def PWM_MAX : Nat := 255

/-- Modelled from the spec: `Heater::start_watching()` — its body is not in
`src/` (only declared in `heater.h`).  Spec §4.4: "`start_watching()` sets
`watch_target = current_temperature + watch_increase[kind]` and
`watch_deadline = now + check_interval[kind]`". -/
def start_watching (now : Nat) (h : Heater) : Heater :=
  { h with
      watch_target_temp := (h.current_temperature + watch_increase h.data.type).toNat,
      watch_next_ms := now + temp_check_interval h.data.type }

/-- Modelled from the spec: `Heater::setTarget(celsius)` — its body is not in
`src/`.  Spec §4.3: "clamps to `[0, maxtemp]`; if newly heating upward, re-arms
the watch window (`start_watching`)". -/
def setTarget (now : Nat) (celsius : Int) (h : Heater) : Heater :=
  let t := min (max celsius 0) h.data.maxtemp
  let h1 := { h with target_temperature := t }
  if h1.current_temperature < t then start_watching now h1 else h1

/-- Modelled from the spec: `Heater::thermal_runaway_protection()` — its body is
not in `src/`.  Spec §4.4 transitions:
`Inactive → FirstHeating` on being Active and heating toward a target above the
current temperature (arming the watch window); `FirstHeating → Stable` when the
watch target is reached; `FirstHeating → Runaway` when the watch deadline
elapses first; `Stable → Runaway` after `runaway_count_threshold` consecutive
out-of-band ticks (the counter resets the instant a reading is back in band);
`Runaway` is terminal and "immediately calls `set_fault()`". -/
def thermal_runaway_protection (now : Nat) (h : Heater) : Heater :=
  match h.thermal_runaway_state with
  | TRState.TRInactive =>
      if h.data.flag.Active = true ∧ h.current_temperature < h.target_temperature then
        start_watching now { h with thermal_runaway_state := TRState.TRFirstHeating }
      else h
  | TRState.TRFirstHeating =>
      if (h.watch_target_temp : Int) ≤ h.current_temperature then
        { h with thermal_runaway_state := TRState.TRStable }
      else if h.watch_next_ms ≤ now then
        setFault { h with thermal_runaway_state := TRState.TRRunaway }
      else h
  | TRState.TRStable =>
      if h.current_temperature < h.target_temperature - temp_hysteresis h.data.type
          ∨ h.target_temperature + temp_hysteresis h.data.type < h.current_temperature then
        if runaway_count_threshold h.data.type ≤ h.consecutive_low_temp + 1 then
          setFault { h with
                      consecutive_low_temp := h.consecutive_low_temp + 1,
                      thermal_runaway_state := TRState.TRRunaway }
        else { h with consecutive_low_temp := h.consecutive_low_temp + 1 }
      else { h with consecutive_low_temp := 0 }
  | TRState.TRRunaway => setFault h

/-- Modelled from the spec: the per-period regulation step `tick()`
(`Heater::get_output` / `Heater::check_and_power` are only declared in
`heater.h`; their bodies are not in `src/`).  Spec §4.3/§4.4: evaluate the
min/max sensor bounds (out-of-range immediately calls `set_fault()` via the
sensor-fault path), advance the runaway automaton, then compute `pwm_value`:
if `Fault` or `!Active` then `pwm_value = 0` and the rest is skipped; the
effective target is `idle_temperature` when idling, else `target_temperature`;
under PID the externally computed output `pidOut` is clamped to `[0, PWM_MAX]`;
under bang-bang, full on below `target - hysteresis`, full off at or above
target, previous output held inside the band. -/
def tick (now : Nat) (pidOut : Int) (h : Heater) : Heater :=
  let h1 :=
    if h.current_temperature < h.data.mintemp ∨ h.data.maxtemp < h.current_temperature then
      setFault h
    else h
  let h2 := thermal_runaway_protection now h1
  if h2.data.flag.Fault = true ∨ h2.data.flag.Active = false then
    { h2 with pwm_value := 0 }
  else
    let eff := if h2.data.flag.Idle = true then h2.idle_temperature else h2.target_temperature
    if h2.data.flag.UsePid = true then
      { h2 with pwm_value := (min (max pidOut 0) (PWM_MAX : Int)).toNat }
    else if h2.current_temperature < eff - temp_hysteresis h2.data.type then
      { h2 with pwm_value := PWM_MAX }
    else if eff ≤ h2.current_temperature then
      { h2 with pwm_value := 0 }
    else h2

/-- The public heater operations of the claims: `setActive`, `setFault`,
`ResetFault`, `SwitchOff`, `setIdle`, `setTarget` and the tick/output
computation. -/
inductive HeaterOp : Type where
  | opSetActive (onoff : Bool)
  | opSetFault
  | opResetFault
  | opSwitchOff
  | opSetIdle (onoff : Bool) (idle_temp : Int)
  | opSetTarget (now : Nat) (celsius : Int)
  | opTick (now : Nat) (pidOut : Int)

/-- Apply one public heater operation. -/
def applyOp : HeaterOp → Heater → Heater
  | HeaterOp.opSetActive b, h => setActive b h
  | HeaterOp.opSetFault, h => setFault h
  | HeaterOp.opResetFault, h => ResetFault h
  | HeaterOp.opSwitchOff, h => SwitchOff h
  | HeaterOp.opSetIdle b t, h => setIdle b t h
  | HeaterOp.opSetTarget now c, h => setTarget now c h
  | HeaterOp.opTick now p, h => tick now p h

/-- The zero-initialized `Heater`: the heaters live in zero-initialized global
arrays (`extern Heater hotends[HOTENDS];` ...), and the `flagheater_t`
constructor sets `all = 0x00`; every scalar field is 0, every flag false, the
heater type and runaway state are the 0-valued enumerators. -/
def zeroHeater : Heater :=
  { data := { type := HeatertypeEnum.IS_HOTEND, pin := 0, flag := flagZero,
              ID := 0, mintemp := 0, maxtemp := 0 },
    pid := 0,
    sensorType := 0,
    watch_target_temp := 0,
    pwm_value := 0,
    consecutive_low_temp := 0,
    target_temperature := 0,
    idle_temperature := 0,
    current_temperature := 0,
    thermal_runaway_state := TRState.TRInactive,
    watch_next_ms := 0,
    idle_timeout_time := 0 }

/-- States reachable from the zero-initialized heater by the public operations. -/
inductive Reachable : Heater → Prop where
  | init : Reachable zeroHeater
  | step : ∀ {h : Heater} (op : HeaterOp), Reachable h → Reachable (applyOp op h)

/-!
## AVR machine model (`HAL_AVR.h`)

The observable machine state for the interrupt claims: the `SREG` status byte
(bit 7 is the global interrupt-enable flag `I`), the two timer interrupt mask
bytes `TIMSK0` (bit `OCIE0B` = 2 enables the temperature compare interrupt) and
`TIMSK1` (bit `OCIE1A` = 1 enables the stepper compare interrupt), and an
abstract `mem` component standing for every other location a handler body may
read or write.  Bytes are `Nat`s manipulated with `&&&`/`|||`; the handler
bodies (`TIMER1_COMPA_vect_bottom`, `TIMER0_COMPB_vect_bottom`) are arbitrary
sequences of state transformers.  Register `r16` of the hand-written assembly
is call-saved in the avr-gcc ABI, so its value survives the `call` into the C
body; it is therefore modelled as a local of the handler definitions.
-/

/-- The machine state visible to the interrupt-handler claims. -/
structure AvrMachine : Type where
  sreg   : Nat
  timsk0 : Nat
  timsk1 : Nat
  mem    : Nat
deriving DecidableEq, Repr

/-- Bit index of `OCIE0B` in `TIMSK0` (temperature compare interrupt enable). -/
def OCIE0B : Nat := 2

/-- Bit index of `OCIE1A` in `TIMSK1` (stepper compare interrupt enable). -/
def OCIE1A : Nat := 1

/-- Run a handler body: a sequence of arbitrary machine-state transformers. -/
def runBody (body : List (AvrMachine → AvrMachine)) (s : AvrMachine) : AvrMachine :=
  body.foldl (fun s f => f s) s

/-- Every machine state passed through while running a body: the state before
the first step and the state after each step (`List.scanl` of `runBody`). -/
def bodyTrace (body : List (AvrMachine → AvrMachine)) (s : AvrMachine) : List AvrMachine :=
  body.scanl (fun s f => f s) s

/-- The prologue of `STEPPER_TIMER_ISR` (`TIMER1_COMPA_vect`), as executed
before `call TIMER1_COMPA_vect_bottom`:
`lds r16,TIMSK0; andi r16,~(1<<OCIE0B); sts TIMSK0,r16` (clear the temperature
interrupt enable), `lds r16,TIMSK1; andi r16,~(1<<OCIE1A); sts TIMSK1,r16`
(clear its own enable), `sei` (re-enable global interrupts).
`~(1<<OCIE0B) = 0xFB = 251`, `~(1<<OCIE1A) = 0xFD = 253` over one byte. -/
def stepperEntry (s : AvrMachine) : AvrMachine :=
  let s1 := { s with timsk0 := s.timsk0 &&& 251 }
  let s2 := { s1 with timsk1 := s1.timsk1 &&& 253 }
  { s2 with sreg := s2.sreg ||| 128 }

/-- The `cli` executed by `TIMER1_COMPA_vect` immediately after the body
returns: clear bit 7 (`I`) of `SREG`. -/
def stepperCli (s : AvrMachine) : AvrMachine :=
  { s with sreg := s.sreg &&& 127 }

/-- The whole `STEPPER_TIMER_ISR` handler `TIMER1_COMPA_vect`, following the
assembly instruction by instruction.  On entry `SREG` and `TIMSK0` are saved
(into `r16` pushes on the stack); after the prologue (`stepperEntry`) the body
runs; the epilogue executes `cli`, `ori r16,(1<<OCIE1A); sts TIMSK1,r16`
(where `r16` still holds the entry `TIMSK1` with `OCIE1A` cleared, preserved
across the call), `pop r16; sts TIMSK0,r16` (restore the saved `TIMSK0` byte),
`pop r16; out SREG,r16` (restore the saved `SREG`), and `reti` (which sets the
`I` bit again). -/
def stepperISR (body : List (AvrMachine → AvrMachine)) (s0 : AvrMachine) : AvrMachine :=
  let savedSreg := s0.sreg
  let savedTimsk0 := s0.timsk0
  let r16 := s0.timsk1 &&& 253
  let s4 := runBody body (stepperEntry s0)
  let s5 := stepperCli s4
  let s6 := { s5 with timsk1 := r16 ||| 2 }
  let s7 := { s6 with timsk0 := savedTimsk0 }
  let s8 := { s7 with sreg := savedSreg }
  { s8 with sreg := s8.sreg ||| 128 }

/-- The prologue of `TEMP_TIMER_ISR` (`TIMER0_COMPB_vect`) before
`call TIMER0_COMPB_vect_bottom`: `lds r16,TIMSK0; andi r16,~(1<<OCIE0B);
sts TIMSK0,r16` (disable its own interrupt enable) and `sei`. -/
def tempEntry (s : AvrMachine) : AvrMachine :=
  let s1 := { s with timsk0 := s.timsk0 &&& 251 }
  { s1 with sreg := s1.sreg ||| 128 }

/-- The whole `TEMP_TIMER_ISR` handler `TIMER0_COMPB_vect`: save `SREG`, clear
`OCIE0B` of `TIMSK0` (keeping the cleared byte in the call-saved `r16`), `sei`,
run the body, then `cli`, `ori r16,(1<<OCIE0B); sts TIMSK0,r16` (re-enable the
temperature interrupt), restore the saved `SREG`, and `reti` (sets `I`). -/
def tempISR (body : List (AvrMachine → AvrMachine)) (s0 : AvrMachine) : AvrMachine :=
  let savedSreg := s0.sreg
  let r16 := s0.timsk0 &&& 251
  let s4 := runBody body (tempEntry s0)
  let s5 := { s4 with sreg := s4.sreg &&& 127 }
  let s6 := { s5 with timsk0 := r16 ||| 4 }
  let s7 := { s6 with sreg := savedSreg }
  { s7 with sreg := s7.sreg ||| 128 }

/-- Source: `class InterruptProtectedBlock`: the member `uint8_t sreg` recorded at
construction. -/
structure InterruptProtectedBlock : Type where
  sreg : Nat
deriving DecidableEq, Repr

/-- The constructor `InterruptProtectedBlock(bool later = false)`:
`sreg = SREG; if (!later) cli();` — returns the constructed block and the
machine state after construction (`cli` clears only bit 7 of `SREG`). -/
def InterruptProtectedBlock.construct (later : Bool) (s : AvrMachine) :
    InterruptProtectedBlock × AvrMachine :=
  (⟨s.sreg⟩, if later = true then s else { s with sreg := s.sreg &&& 127 })

/-- Source: `InterruptProtectedBlock::protect()`: `cli();`. -/
def InterruptProtectedBlock.protect (s : AvrMachine) : AvrMachine :=
  { s with sreg := s.sreg &&& 127 }

/-- Source: `InterruptProtectedBlock::unprotect()` and the destructor
`~InterruptProtectedBlock()`: `SREG = sreg;` — restore the recorded byte,
whatever the machine state at that point. -/
def InterruptProtectedBlock.destruct (b : InterruptProtectedBlock) (s : AvrMachine) :
    AvrMachine :=
  { s with sreg := b.sreg }

/-! ## Helper lemmas -/

theorem setActive_false_eq (h : Heater) : setActive false h = setFlagActive false h := by
  simp [setActive]

theorem setFault_fields (h : Heater) :
    (setFault h).pwm_value = 0 ∧ (setFault h).data.flag.Active = false ∧
      (setFault h).data.flag.Fault = true ∧ (setFault h).sensorType = h.sensorType ∧
      (setFault h).thermal_runaway_state = h.thermal_runaway_state := by
  simp [setFault, setActive, setFlagActive, setFlagFault]

/-- The inductive invariant behind the reachable-state claim: from the
zero-initialized heater the sensor stays unconfigured, so `setActive` can never
set the `Active` bit and every pwm write is a write of 0. -/
def HeaterInv (h : Heater) : Prop :=
  h.sensorType = 0 ∧ h.data.flag.Active = false ∧ h.pwm_value = 0

theorem heaterInv_setFault {h : Heater} (hs : h.sensorType = 0) :
    HeaterInv (setFault h) := by
  refine ⟨?_, ?_, ?_⟩ <;> simp [setFault, setActive, setFlagActive, setFlagFault, hs]

theorem heaterInv_start_watching {h : Heater} (now : Nat) (hI : HeaterInv h) :
    HeaterInv (start_watching now h) := by
  obtain ⟨hs, hA, hp⟩ := hI
  exact ⟨hs, hA, hp⟩

theorem heaterInv_trp {h : Heater} (now : Nat) (hI : HeaterInv h) :
    HeaterInv (thermal_runaway_protection now h) := by
  obtain ⟨hs, hA, hp⟩ := hI
  cases htrs : h.thermal_runaway_state with
  | TRInactive =>
      simp only [thermal_runaway_protection, htrs]
      rw [if_neg (by simp [hA])]
      exact ⟨hs, hA, hp⟩
  | TRFirstHeating =>
      simp only [thermal_runaway_protection, htrs]
      split_ifs with h1 h2
      · exact ⟨hs, hA, hp⟩
      · exact heaterInv_setFault hs
      · exact ⟨hs, hA, hp⟩
  | TRStable =>
      simp only [thermal_runaway_protection, htrs]
      split_ifs with h1 h2
      · exact heaterInv_setFault hs
      · exact ⟨hs, hA, hp⟩
      · exact ⟨hs, hA, hp⟩
  | TRRunaway =>
      simp only [thermal_runaway_protection, htrs]
      exact heaterInv_setFault hs

theorem heaterInv_tick {h : Heater} (now : Nat) (pidOut : Int) (hI : HeaterInv h) :
    HeaterInv (tick now pidOut h) := by
  have h1 : HeaterInv (if h.current_temperature < h.data.mintemp ∨
      h.data.maxtemp < h.current_temperature then setFault h else h) := by
    split_ifs
    · exact heaterInv_setFault hI.1
    · exact hI
  have h2 := heaterInv_trp now h1
  simp only [tick]
  rw [if_pos (Or.inr h2.2.1)]
  exact ⟨h2.1, h2.2.1, rfl⟩

theorem heaterInv_applyOp {h : Heater} (op : HeaterOp) (hI : HeaterInv h) :
    HeaterInv (applyOp op h) := by
  obtain ⟨hs, hA, hp⟩ := hI
  cases op with
  | opSetActive b =>
      refine ⟨?_, ?_, ?_⟩ <;> simp [applyOp, setActive, setFlagActive, hs, hp]
  | opSetFault => exact heaterInv_setFault hs
  | opResetFault =>
      refine ⟨?_, ?_, ?_⟩ <;>
        simp [applyOp, ResetFault, SwitchOff, setActive, setFlagActive, setFlagFault, hs]
  | opSwitchOff =>
      refine ⟨?_, ?_, ?_⟩ <;> simp [applyOp, SwitchOff, setActive, setFlagActive, hs]
  | opSetIdle b t =>
      simp only [applyOp, setIdle, setFlagIdle]
      split_ifs <;> exact ⟨hs, hA, hp⟩
  | opSetTarget now c =>
      simp only [applyOp, setTarget]
      split_ifs
      · exact heaterInv_start_watching now ⟨hs, hA, hp⟩
      · exact ⟨hs, hA, hp⟩
  | opTick now p => exact heaterInv_tick now p ⟨hs, hA, hp⟩

theorem heaterInv_reachable {h : Heater} (hr : Reachable h) : HeaterInv h := by
  induction hr with
  | init => exact ⟨rfl, rfl, rfl⟩
  | step op _ ih => exact heaterInv_applyOp op ih

theorem setActive_trs (b : Bool) (h : Heater) :
    (setActive b h).thermal_runaway_state = h.thermal_runaway_state := by
  unfold setActive
  split_ifs <;> rfl

theorem SwitchOff_trs (h : Heater) :
    (SwitchOff h).thermal_runaway_state = h.thermal_runaway_state := by
  simp [SwitchOff, setActive_false_eq, setFlagActive]

theorem ResetFault_trs (h : Heater) :
    (ResetFault h).thermal_runaway_state = h.thermal_runaway_state := by
  simp [ResetFault, SwitchOff_trs, setFlagFault]

theorem setTarget_trs (now : Nat) (c : Int) (h : Heater) :
    (setTarget now c h).thermal_runaway_state = h.thermal_runaway_state := by
  simp only [setTarget]
  split_ifs <;> simp [start_watching]

theorem tick_runaway_terminal (now : Nat) (pidOut : Int) (h : Heater)
    (hR : h.thermal_runaway_state = TRState.TRRunaway) :
    (tick now pidOut h).thermal_runaway_state = TRState.TRRunaway := by
  simp only [tick]
  set h1 := if h.current_temperature < h.data.mintemp ∨ h.data.maxtemp < h.current_temperature
    then setFault h else h with hh1
  have h1trs : h1.thermal_runaway_state = TRState.TRRunaway := by
    rw [hh1]
    split_ifs
    · rw [(setFault_fields h).2.2.2.2]
      exact hR
    · exact hR
  have h2trs : (thermal_runaway_protection now h1).thermal_runaway_state =
      TRState.TRRunaway := by
    simp only [thermal_runaway_protection, h1trs]
    rw [(setFault_fields h1).2.2.2.2]
    exact h1trs
  split_ifs <;> exact h2trs

/-! ## Claim theorems -/

/-- C2: `setFault()` establishes `pwm_value = 0`, `Active = false`,
`Fault = true`, and is idempotent: a second call leaves the entire heater
state unchanged. -/
theorem setFault_establishes_safe_state_and_idempotent (h : Heater) :
    (setFault h).pwm_value = 0 ∧ (setFault h).data.flag.Active = false ∧
      (setFault h).data.flag.Fault = true ∧ setFault (setFault h) = setFault h := by
  refine ⟨?_, ?_, ?_, ?_⟩ <;>
    simp [setFault, setActive, setFlagActive, setFlagFault]

/-- C3: `ResetFault()` yields `Fault = false`, `Active = false`,
`target_temperature = 0` and `pwm_value = 0`: it never leaves the heater in a
state that resumes heating. -/
theorem resetFault_full_shutoff (h : Heater) :
    (ResetFault h).data.flag.Fault = false ∧ (ResetFault h).data.flag.Active = false ∧
      (ResetFault h).target_temperature = 0 ∧ (ResetFault h).pwm_value = 0 := by
  refine ⟨?_, ?_, ?_, ?_⟩ <;>
    simp [ResetFault, SwitchOff, setActive, setFlagActive, setFlagFault]

/-- C4: after `setActive(onoff)` the `Active` flag is true iff `onoff` is true,
`Fault` is false and a sensor is configured (`sensor.type != 0`); in every
other case it is false. -/
theorem setActive_active_iff (h : Heater) (onoff : Bool) :
    (setActive onoff h).data.flag.Active = true ↔
      onoff = true ∧ h.data.flag.Fault = false ∧ h.sensorType ≠ 0 := by
  unfold setActive
  split_ifs with hc
  · constructor
    · intro _
      exact ⟨hc.2.2, hc.1, hc.2.1⟩
    · intro _
      rfl
  · constructor
    · intro hfalse
      exact absurd hfalse (by simp [setFlagActive])
    · intro hcond
      exact absurd ⟨hcond.2.1, hcond.2.2, hcond.1⟩ hc

/-- C9: `setIdle(onoff, idle_temp)` overwrites `idle_temperature` with
`idle_temp` for either value of `onoff` (so `setIdle(false)` with the default
argument `0` resets it to `0`), and `setIdle(false, _)` leaves the thermal
runaway automaton state unchanged. -/
theorem setIdle_overwrites_idle_temperature (h : Heater) (b : Bool) (t : Int) :
    (setIdle b t h).idle_temperature = t ∧
      (setIdle false t h).thermal_runaway_state = h.thermal_runaway_state ∧
      (setIdle false 0 h).idle_temperature = 0 := by
  cases b <;> simp [setIdle, setFlagIdle]

/-- C1: in every heater state reachable from the zero-initialized state by the
public operations (`setActive`, `setFault`, `ResetFault`, `SwitchOff`,
`setIdle`, `setTarget`, the tick/output computation), `pwm_value = 0` holds
whenever `Active` is false or `Fault` is true.  (Along this reachable set the
sensor is never configured, so the invariant in fact holds unconditionally.) -/
theorem reachable_pwm_zero_when_inactive_or_fault (h : Heater) (hr : Reachable h)
    (_hcase : h.data.flag.Active = false ∨ h.data.flag.Fault = true) :
    h.pwm_value = 0 :=
  (heaterInv_reachable hr).2.2

/-- Witness for C1 at the state reached by `setFault` from the zero-initialized
heater, which has `Fault = true`. -/
theorem reachable_pwm_zero_witness :
    (applyOp HeaterOp.opSetFault zeroHeater).pwm_value = 0 :=
  reachable_pwm_zero_when_inactive_or_fault _
    (Reachable.step HeaterOp.opSetFault Reachable.init) (Or.inr (by decide))

/-- C5: `setIdle(true, idle_temp)` sets the thermal runaway automaton state to
`TRInactive` (re-arming detection), and no other public operation moves the
automaton out of `TRRunaway` — in particular none returns it to `TRInactive`. -/
theorem setIdle_true_rearms_and_runaway_terminal (h : Heater) (t : Int) :
    (setIdle true t h).thermal_runaway_state = TRState.TRInactive ∧
      ∀ op : HeaterOp, (∀ t2 : Int, op ≠ HeaterOp.opSetIdle true t2) →
        h.thermal_runaway_state = TRState.TRRunaway →
        (applyOp op h).thermal_runaway_state = TRState.TRRunaway := by
  constructor
  · simp [setIdle, setFlagIdle]
  · intro op hop hR
    cases op with
    | opSetActive b =>
        simp only [applyOp, setActive_trs]
        exact hR
    | opSetFault =>
        simp only [applyOp]
        rw [(setFault_fields h).2.2.2.2]
        exact hR
    | opResetFault =>
        simp only [applyOp, ResetFault_trs]
        exact hR
    | opSwitchOff =>
        simp only [applyOp, SwitchOff_trs]
        exact hR
    | opSetIdle b t2 =>
        cases b with
        | true => exact absurd rfl (hop t2)
        | false =>
            simp only [applyOp, setIdle, setFlagIdle]
            simpa using hR
    | opSetTarget now c =>
        simp only [applyOp, setTarget_trs]
        exact hR
    | opTick now p =>
        simp only [applyOp]
        exact tick_runaway_terminal now p h hR

/-- A heater whose runaway automaton has tripped, for the C5 witness. -/
def runawayHeater : Heater :=
  { zeroHeater with thermal_runaway_state := TRState.TRRunaway }

/-- Witness for C5: from a tripped automaton, `setIdle(true, 0)` re-arms to
`TRInactive`, while `setFault` leaves the automaton in `TRRunaway`. -/
theorem setIdle_true_rearms_witness :
    (setIdle true 0 runawayHeater).thermal_runaway_state = TRState.TRInactive ∧
      (applyOp HeaterOp.opSetFault runawayHeater).thermal_runaway_state =
        TRState.TRRunaway := by
  refine ⟨(setIdle_true_rearms_and_runaway_terminal runawayHeater 0).1,
    (setIdle_true_rearms_and_runaway_terminal runawayHeater 0).2 HeaterOp.opSetFault
      ?_ (by decide)⟩
  intro t2
  simp

/-- C10: `resetFlag()` clears all eight flags at once and leaves every other
heater field — in particular `pwm_value` and `target_temperature`, so no
output shutoff happens — unchanged. -/
theorem resetFlag_clears_all_flags_frame (h : Heater) :
    (resetFlag h).data.flag.Active = false ∧
      (resetFlag h).data.flag.UsePid = false ∧
      (resetFlag h).data.flag.Pidtuned = false ∧
      (resetFlag h).data.flag.HWInvert = false ∧
      (resetFlag h).data.flag.Thermalprotection = false ∧
      (resetFlag h).data.flag.Idle = false ∧
      (resetFlag h).data.flag.Fault = false ∧
      (resetFlag h).data.flag.Pidtuning = false ∧
      (resetFlag h).pwm_value = h.pwm_value ∧
      (resetFlag h).target_temperature = h.target_temperature ∧
      (resetFlag h).idle_temperature = h.idle_temperature ∧
      (resetFlag h).current_temperature = h.current_temperature ∧
      (resetFlag h).thermal_runaway_state = h.thermal_runaway_state ∧
      (resetFlag h).sensorType = h.sensorType ∧
      (resetFlag h).pid = h.pid ∧
      (resetFlag h).watch_target_temp = h.watch_target_temp ∧
      (resetFlag h).consecutive_low_temp = h.consecutive_low_temp ∧
      (resetFlag h).watch_next_ms = h.watch_next_ms ∧
      (resetFlag h).idle_timeout_time = h.idle_timeout_time ∧
      (resetFlag h).data.type = h.data.type ∧
      (resetFlag h).data.pin = h.data.pin ∧
      (resetFlag h).data.ID = h.data.ID ∧
      (resetFlag h).data.mintemp = h.data.mintemp ∧
      (resetFlag h).data.maxtemp = h.data.maxtemp := by
  simp [resetFlag, flagZero]

/-- C6: constructing an `InterruptProtectedBlock` records the current `SREG`
byte; the immediate variant (`later = false`) clears the global
interrupt-enable bit (bit 7), the deferred variant (`later = true`) leaves the
machine untouched; and the destructor restores `SREG` to exactly the recorded
byte from any machine state `t` at destruction time — so the
construct-then-destroy round trip restores the prior interrupt state for both
variants. -/
theorem interruptProtectedBlock_records_and_restores (s t : AvrMachine) :
    ((InterruptProtectedBlock.construct false s).1.sreg = s.sreg ∧
        ((InterruptProtectedBlock.construct false s).2.sreg).testBit 7 = false ∧
        (InterruptProtectedBlock.destruct
          (InterruptProtectedBlock.construct false s).1 t).sreg = s.sreg ∧
        (InterruptProtectedBlock.destruct (InterruptProtectedBlock.construct false s).1
          (InterruptProtectedBlock.construct false s).2).sreg = s.sreg) ∧
      ((InterruptProtectedBlock.construct true s).1.sreg = s.sreg ∧
        (InterruptProtectedBlock.construct true s).2 = s ∧
        (InterruptProtectedBlock.destruct
          (InterruptProtectedBlock.construct true s).1 t).sreg = s.sreg) := by
  have h127 : Nat.testBit 127 7 = false := by decide
  refine ⟨⟨rfl, ?_, rfl, rfl⟩, rfl, rfl, rfl⟩
  simp [InterruptProtectedBlock.construct, Nat.testBit_land, h127]

/-- C7: the stepper (motion) timer handler clears the temperature channel's
interrupt-enable bit `OCIE0B` of `TIMSK0` in its prologue, re-enables global
interrupts (bit 7 of `SREG`) before calling the body, disables them again
right after the body (`stepperCli`), and on exit restores the whole `TIMSK0`
byte — the saved `OCIE0B` bit and every other bit — to its exact pre-handler
value, for every body (every completion path). -/
theorem stepper_isr_masks_temp_and_restores_timsk0
    (body : List (AvrMachine → AvrMachine)) (s0 : AvrMachine) :
    (stepperEntry s0).timsk0.testBit OCIE0B = false ∧
      (stepperEntry s0).sreg.testBit 7 = true ∧
      (stepperCli (runBody body (stepperEntry s0))).sreg.testBit 7 = false ∧
      (stepperISR body s0).timsk0 = s0.timsk0 := by
  refine ⟨?_, ?_, ?_, rfl⟩
  · have h251 : Nat.testBit 251 2 = false := by decide
    simp [stepperEntry, OCIE0B, Nat.testBit_land, h251]
  · have h128 : Nat.testBit 128 7 = true := by decide
    simp [stepperEntry, Nat.testBit_lor, h128]
  · have h127 : Nat.testBit 127 7 = false := by decide
    simp [stepperCli, Nat.testBit_land, h127]

theorem bodyTrace_bit_stays_clear :
    ∀ body : List (AvrMachine → AvrMachine),
      (∀ f ∈ body, ∀ s : AvrMachine, s.timsk0.testBit OCIE0B = false →
        ((f s).timsk0).testBit OCIE0B = false) →
      ∀ s : AvrMachine, s.timsk0.testBit OCIE0B = false →
        ((bodyTrace body s).all fun u => !(u.timsk0.testBit OCIE0B)) = true := by
  intro body
  induction body with
  | nil =>
      intro _ s hs
      simp [bodyTrace, hs]
  | cons f fs ih =>
      intro hb s hs
      have h1 : ((f s).timsk0).testBit OCIE0B = false := hb f (by simp) s hs
      have h2 := ih (fun g hg => hb g (List.mem_cons_of_mem f hg)) (f s) h1
      rw [show bodyTrace (f :: fs) s = s :: bodyTrace fs (f s) from rfl]
      simp [List.all_cons, hs, h2]

/-- C8: throughout the temperature timer handler body the temperature
channel's own enable bit `OCIE0B` of `TIMSK0` is cleared — it is cleared
before the body starts, and stays cleared at every intermediate state of any
body whose steps never set that bit — and the handler sets the bit again
before returning. -/
theorem temp_isr_bit_clear_throughout_body (body : List (AvrMachine → AvrMachine))
    (s0 : AvrMachine)
    (hbody : ∀ f ∈ body, ∀ s : AvrMachine, s.timsk0.testBit OCIE0B = false →
      ((f s).timsk0).testBit OCIE0B = false) :
    (tempEntry s0).timsk0.testBit OCIE0B = false ∧
      ((bodyTrace body (tempEntry s0)).all fun u => !(u.timsk0.testBit OCIE0B)) = true ∧
      (tempISR body s0).timsk0.testBit OCIE0B = true := by
  have hentry : (tempEntry s0).timsk0.testBit OCIE0B = false := by
    have h251 : Nat.testBit 251 2 = false := by decide
    simp [tempEntry, OCIE0B, Nat.testBit_land, h251]
  refine ⟨hentry, bodyTrace_bit_stays_clear body hbody _ hentry, ?_⟩
  have h4 : Nat.testBit 4 2 = true := by decide
  simp [tempISR, OCIE0B, Nat.testBit_lor, h4]

/-- A one-step handler body that only touches memory, for the C8 witness. -/
def demoBody : List (AvrMachine → AvrMachine) :=
  [fun s => { s with mem := s.mem + 1 }]

/-- A machine state with global interrupts enabled and both mask bytes full,
for the C8 witness. -/
def demoMachine : AvrMachine :=
  ⟨128, 255, 255, 0⟩

/-- Witness for C8 on a concrete one-step body and machine state. -/
theorem temp_isr_bit_clear_witness :
    (tempEntry demoMachine).timsk0.testBit OCIE0B = false ∧
      ((bodyTrace demoBody (tempEntry demoMachine)).all
        fun u => !(u.timsk0.testBit OCIE0B)) = true ∧
      (tempISR demoBody demoMachine).timsk0.testBit OCIE0B = true :=
  temp_isr_bit_clear_throughout_body demoBody demoMachine (by
    intro f hf s hs
    simp only [demoBody, List.mem_singleton] at hf
    subst hf
    exact hs)

end MK4duo
